import Mathlib

/-!
Verification of the FacePoke server core (src/app.py, src/engine.py,
src/liveportrait/utils/cropper.py) against its natural-language
specification.

Numeric conventions: Python float literals are embedded as exact
rationals (ℚ); machine hashing (hashlib.md5) and the external neural
pipeline (LivePortrait) are modelled as parameters of the definitions,
instantiated concretely in witnesses.
-/

namespace FacePoke

/-! ## EditParameters: the Python dict of named scalar parameters.

Modelled as an insertion-ordered association list, matching dict
semantics: `get` returns the first (unique) binding or the default 0,
assignment replaces an existing binding in place or appends a new one. -/

/-- The `params: Dict[str, float]` mapping of engine.py. -/
abbrev ParamMap := List (String × ℚ)

/-- Python `params.get(name, 0)`. -/
def pget (p : ParamMap) (k : String) : ℚ :=
  match p.find? (fun e => e.1 == k) with
  | some e => e.2
  | none => 0

/-- Python `params[name] = v` on a dict: replace in place if the key is
present, append otherwise. -/
def pset (p : ParamMap) (k : String) (v : ℚ) : ParamMap :=
  if p.any (fun e => e.1 == k) then
    p.map (fun e => if e.1 == k then (k, v) else e)
  else
    p ++ [(k, v)]

/-! ## Keypoint tensor.

`x_d_new` in engine.py has shape (1, 21, 3); every index expression in
`_apply_facial_modifications` uses batch index 0, so the batch dimension
is dropped and a tensor is a function of (landmark, coordinate). -/

/-- The keypoint tensor `x_s_info['kp']` / `x_d_new` (batch index 0 of the
(1, 21, 3) torch tensor). -/
abbrev KP := Fin 21 → Fin 3 → ℚ

/-- A 3 × 3 rotation matrix as returned by `get_rotation_matrix`. -/
abbrev Rot3 := Fin 3 → Fin 3 → ℚ

/-- Python `x_d_new[0, j, k] += v` made functional. -/
def addAt (m : KP) (j : Fin 21) (k : Fin 3) (v : ℚ) : KP :=
  fun a b => if a = j ∧ b = k then m a b + v else m a b

/-- Batched matrix product `x_d_new @ R_new` restricted to batch 0:
entry (j, k) is the dot product of landmark row j with column k of R. -/
def kpMatMul (m : KP) (r : Rot3) : KP :=
  fun j k => ∑ c : Fin 3, m j c * r c k

/-- Python `scale * M + t` with `t` of shape (1, 3) broadcast over the 21
landmark rows. -/
def kpScaleAddT (s : ℚ) (m : KP) (t : Fin 3 → ℚ) : KP :=
  fun j k => s * m j k + t k

/-- One table adjustment (i, j, k, factor) of `_apply_facial_modifications`
with the constant batch index i = 0 dropped. -/
abbrev Adjustment := Fin 21 × Fin 3 × ℚ

/-- The `modifications` table of engine.py lines 225-260. The `pupil_x`
and `eyebrow` rows choose between two literal coefficients by the sign of
the corresponding parameter, exactly as in the source. -/
def modificationsTable (params : ParamMap) : List (String × List Adjustment) :=
  [ ("smile",
      [(20, 1, -0.01), (14, 1, -0.02), (17, 1, 0.0065), (17, 2, 0.003),
       (13, 1, -0.00275), (16, 1, -0.00275), (3, 1, -0.0035), (7, 1, -0.0035)]),
    ("aaa",
      [(19, 1, 0.001), (19, 2, 0.0001), (17, 1, -0.0001)]),
    ("eee",
      [(20, 2, -0.001), (20, 1, -0.001), (14, 1, -0.001)]),
    ("woo",
      [(14, 1, 0.001), (3, 1, -0.0005), (7, 1, -0.0005), (17, 2, -0.0005)]),
    ("wink",
      [(11, 1, 0.001), (13, 1, -0.0003), (17, 0, 0.0003),
       (17, 1, 0.0003), (3, 1, -0.0003)]),
    ("pupil_x",
      [(11, 0, if pget params "pupil_x" > 0 then 0.0007 else 0.001),
       (15, 0, if pget params "pupil_x" > 0 then 0.001 else 0.0007)]),
    ("pupil_y",
      [(11, 1, -0.001), (15, 1, -0.001)]),
    ("eyes",
      [(11, 1, -0.001), (13, 1, 0.0003), (15, 1, -0.001), (16, 1, 0.0003),
       (1, 1, -0.00025), (2, 1, 0.00025)]),
    ("eyebrow",
      [(1, 1, if pget params "eyebrow" > 0 then 0.001 else 0.0003),
       (2, 1, if pget params "eyebrow" > 0 then -0.001 else -0.0003),
       (1, 0, if pget params "eyebrow" ≤ 0 then -0.001 else 0),
       (2, 0, if pget params "eyebrow" ≤ 0 then 0.001 else 0)]) ]

/-- The table-driven pass: for each (name, adjustments) row add
`params.get(name, 0) * factor` at each targeted coordinate. -/
def applyTable (kp : KP) (params : ParamMap) (table : List (String × List Adjustment)) : KP :=
  table.foldl
    (fun acc row =>
      row.2.foldl (fun acc2 adj => addAt acc2 adj.1 adj.2.1 (pget params row.1 * adj.2.2)) acc)
    kp

/-- Engine._apply_facial_modifications (engine.py lines 217-270): the
table-driven pass, then the two direct `pupil_y` perturbations
(`x_d_new[0,11,1] -= pupil_y*0.001`, `x_d_new[0,15,1] -= pupil_y*0.001`),
then the assignment `params['eyes'] = params.get('eyes',0) - params.get('pupil_y',0)/2.`.
The Python method mutates `x_d_new` and `params` in place; both final
values are returned here. Note the `params['eyes']` assignment happens
after the table pass, so the eyes table row above reads the raw value. -/
def applyFacialModifications (kp : KP) (params : ParamMap) : KP × ParamMap :=
  let kp1 := applyTable kp params (modificationsTable params)
  let kp2 := addAt kp1 11 1 (-(pget params "pupil_y" * 0.001))
  let kp3 := addAt kp2 15 1 (-(pget params "pupil_y" * 0.001))
  (kp3, pset params "eyes" (pget params "eyes" - pget params "pupil_y" / 2))

/-- Modelled from the spec (section 4.3 step 3): the variant of
`_apply_facial_modifications` the specification mandates, in which the
`eyes` table row is evaluated at the effective value
`eyes - pupil_y/2` instead of the raw `eyes` input, the two direct
`pupil_y` perturbations are applied, and the input mapping is not
mutated. Used only for comparison against the source definition. -/
def applyFacialModificationsSpecEyes (kp : KP) (params : ParamMap) : KP :=
  let effective := pset params "eyes" (pget params "eyes" - pget params "pupil_y" / 2)
  let kp1 := applyTable kp effective (modificationsTable params)
  let kp2 := addAt kp1 11 1 (-(pget params "pupil_y" * 0.001))
  addAt kp2 15 1 (-(pget params "pupil_y" * 0.001))

/-! ## Engine session caches (engine.py lines 59-60, 64-87, 89-130, 152-169).

Images, byte payloads and processed feature bundles are opaque to the
cache logic; they are modelled as `Nat` values and `List Nat` payloads.
`hashlib.md5(...).hexdigest()` is modelled by parameters
`md5I : Nat → String` (md5 of `image.tobytes()`) and
`md5B : List Nat → String` (md5 of a bytes payload); PIL image opening
and the LivePortrait extraction are likewise parameters. -/

/-- The `image_or_hash` argument of modify_image / get_image_hash:
a PIL Image, a string (hash or base64 data URI), or raw bytes. -/
inductive ImgInput where
  | pil (img : Nat)
  | str (s : String)
  | bytes (b : List Nat)
deriving DecidableEq

/-- The errors raised along the engine paths. `failedToModify e` is the
`ValueError("Failed to modify image: ...")` wrapper of modify_image
around an inner failure `e`. -/
inductive EngErr where
  | invalidB64
  | unidentifiedImage
  | imageNotInCache
  | notFoundNoImage
  | noFaceDetected
  | renderError
  | failedToModify (e : EngErr)
deriving DecidableEq

/-- Association-list lookup with string keys: Python `d[k]` / `k in d`.
The keys of a dict are unique, so first match is the match. -/
def lookupA {α : Type} : List (String × α) → String → Option α
  | [], _ => none
  | e :: rest, k => if e.1 == k then some e.2 else lookupA rest k

/-- Association-list assignment `d[k] = v`: replace the binding in place
if the key is present, append otherwise (dict insertion order). -/
def insertA {α : Type} : List (String × α) → String → α → List (String × α)
  | [], k, v => [(k, v)]
  | e :: rest, k, v => if e.1 == k then (k, v) :: rest else e :: insertA rest k v

/-- Python `base64_string.split(',')[1]` guarded by `if ',' in base64_string`
(engine.py lines 38-39): the segment between the first comma and the next
comma or the end of the string. -/
def stripDataUri (s : String) : String :=
  if s.toList.contains ',' then
    String.mk ((((s.toList.dropWhile (fun c => !(c == ','))).drop 1).takeWhile
      (fun c => !(c == ','))))
  else s

/-- The base64 length/padding requirement enforced by Python
`base64.b64decode` with validate=False for padding-free payloads:
characters outside the base64 alphabet are discarded and the remaining
count must be a multiple of four, else binascii.Error is raised. -/
def b64LenOk (s : String) : Bool :=
  ((s.toList.filter (fun c => c.isAlphanum || c == '+' || c == '/')).length) % 4 == 0

/-- base64_data_uri_to_PIL_Image (engine.py lines 28-41): strip the data
URI head, check the base64 payload, then open the decoded bytes as an
image. `openImg` abstracts `Image.open` composed with the b64 decoding
bijection; it receives the payload string and may fail
(PIL.UnidentifiedImageError). -/
def base64DataUriToImage (openImg : String → Except EngErr Nat) (s : String) : Except EngErr Nat :=
  let payload := stripDataUri s
  if b64LenOk payload then openImg payload else .error .invalidB64

/-- Engine.get_image_hash (engine.py lines 64-87): a 32-character string
is returned unchanged as an already-computed hash; any other string is
decoded as a base64 data URI into an image whose md5 is returned; a PIL
image or a bytes payload is hashed directly. -/
def getImageHash (md5I : Nat → String) (md5B : List Nat → String)
    (openImg : String → Except EngErr Nat) : ImgInput → Except EngErr String
  | .str s =>
      if s.length = 32 then .ok s
      else (base64DataUriToImage openImg s).map md5I
  | .pil img => .ok (md5I img)
  | .bytes b => .ok (md5B b)

/-- The mutable state of an Engine instance: the two session dictionaries
of engine.py lines 59-60 plus the functools.lru_cache memo attached to
_process_image by the decorator on line 89 (most recent first). A cached
image is stored as it arrived: a PIL image (inl) or raw bytes (inr). -/
structure EngineState where
  imageCache : List (String × (Nat ⊕ List Nat))
  processedCache : List (String × Nat)
  lruMemo : List (String × Nat)
deriving DecidableEq

/-- The Engine state right after `__init__`: all caches empty. -/
def emptyEngine : EngineState := ⟨[], [], []⟩

/-- The body of Engine._process_image (engine.py lines 90-130): fail if
the hash is missing from image_cache, otherwise run the extraction
pipeline (`ext`, abstracting resize, crop_single_image and the
LivePortrait encoders) on the cached image and store the processed data
in processed_cache. On failure nothing is stored. -/
def processImageBody (ext : Nat ⊕ List Nat → Except EngErr Nat)
    (st : EngineState) (h : String) : Except EngErr Nat × EngineState :=
  match lookupA st.imageCache h with
  | none => (.error .imageNotInCache, st)
  | some img =>
    match ext img with
    | .error e => (.error e, st)
    | .ok pd => (.ok pd, { st with processedCache := insertA st.processedCache h pd })

/-- Move the entry for `k` to the front of the memo (recency refresh). -/
def touchMemo (l : List (String × Nat)) (k : String) : List (String × Nat) :=
  match lookupA l k with
  | some v => (k, v) :: l.filter (fun e => !(e.1 == k))
  | none => l

/-- The `@lru_cache(maxsize=256)` wrapper around _process_image: a memo
hit returns the memoised value and refreshes recency without running the
body; a miss runs the body and, on success only, records the result,
evicting beyond 256 entries. The memo is separate from processed_cache,
which the body fills and which is never evicted. -/
def processImageLru (ext : Nat ⊕ List Nat → Except EngErr Nat)
    (st : EngineState) (h : String) : Except EngErr Nat × EngineState :=
  match lookupA st.lruMemo h with
  | some pd => (.ok pd, { st with lruMemo := touchMemo st.lruMemo h })
  | none =>
    match processImageBody ext st h with
    | (.error e, st1) => (.error e, st1)
    | (.ok pd, st1) => (.ok pd, { st1 with lruMemo := ((h, pd) :: st1.lruMemo).take 256 })

/-- The image_cache fill step of modify_image (engine.py lines 155-163):
when the hash is not yet cached, store the provided PIL image or bytes as
they arrived, or decode and store a base64 string; a bare 32-character
hash with no cached image is an error. -/
def fillImageCache (openImg : String → Except EngErr Nat)
    (st : EngineState) (input : ImgInput) (h : String) : Except EngErr EngineState :=
  if (lookupA st.imageCache h).isSome then .ok st
  else
    match input with
    | .pil img => .ok { st with imageCache := insertA st.imageCache h (.inl img) }
    | .bytes b => .ok { st with imageCache := insertA st.imageCache h (.inr b) }
    | .str s =>
      if s.length ≠ 32 then
        (base64DataUriToImage openImg s).map
          (fun img => { st with imageCache := insertA st.imageCache h (.inl img) })
      else .error .notFoundNoImage

/-- Engine.modify_image, cache and orchestration portion (engine.py lines
152-210): compute the hash; if absent from image_cache, insert the
provided image, bytes, or decoded base64 string, or fail when only a
32-character hash was provided; obtain processed data from
processed_cache or via the lru-wrapped _process_image; then run the
downstream keypoint edit, stitching, warp/decode, paste-back and WebP
encoding, abstracted by `post` (fully modelled separately by
`modifyKeypoints` for the keypoint-editor claims). Every failure is
re-raised as the failedToModify wrapper; state mutations made before a
failure persist, as they do on the Python object. -/
def modifyImage (md5I : Nat → String) (md5B : List Nat → String)
    (openImg : String → Except EngErr Nat) (ext : Nat ⊕ List Nat → Except EngErr Nat)
    (post : Nat → ParamMap → Except EngErr String)
    (st : EngineState) (input : ImgInput) (params : ParamMap) :
    Except EngErr String × EngineState :=
  match getImageHash md5I md5B openImg input with
  | .error e => (.error (.failedToModify e), st)
  | .ok h =>
    match fillImageCache openImg st input h with
    | .error e => (.error (.failedToModify e), st)
    | .ok st1 =>
      match lookupA st1.processedCache h with
      | some pd =>
        (match post pd params with
         | .error e => .error (.failedToModify e)
         | .ok out => .ok out, st1)
      | none =>
        match processImageLru ext st1 h with
        | (.error e, st2) => (.error (.failedToModify e), st2)
        | (.ok pd, st2) =>
          (match post pd params with
           | .error e => .error (.failedToModify e)
           | .ok out => .ok out, st2)

/-- Fold a sequence of modify_image calls (empty params), keeping only
the evolving engine state; used to express repeated ingestion. -/
def foldIngest (md5I : Nat → String) (md5B : List Nat → String)
    (openImg : String → Except EngErr Nat) (ext : Nat ⊕ List Nat → Except EngErr Nat)
    (post : Nat → ParamMap → Except EngErr String)
    (l : List ImgInput) (st : EngineState) : EngineState :=
  l.foldl (fun s i => (modifyImage md5I md5B openImg ext post s i []).2) st

/-! ## Concurrent-ingest interleaving model (engine.py lines 166-167, 89).

Two callers of modify_image with byte-identical payloads share a content
hash `h`. Each caller performs two atomic phases, mirroring the source:
the `image_hash not in self.processed_cache` test together with the
lru-memo probe (a read), then, on a miss, the extraction body followed by
the cache insertions (a write). CPython functools.lru_cache documents
that the wrapped function can run more than once when a second thread
calls before the first call has been cached, which is exactly the
granularity modelled here: the extraction runs off the event loop in
`asyncio.to_thread`, so the two phases of different callers can
interleave. -/

/-- Shared dedup state: the processed entries for each hash, and how many
times the underlying extraction has been invoked. -/
structure DedupState where
  processed : List (String × Nat)
  extractions : Nat
deriving DecidableEq

/-- One ingest caller: not yet started, holding the result of its cache
probe, or finished with the processed value it resolved to. -/
inductive CallerPhase where
  | start
  | checked (found : Option Nat)
  | done (res : Nat)
deriving DecidableEq

/-- One atomic phase of a caller ingesting content hash `h`, where
`extVal h` is the (deterministic) extraction result for that content. -/
def stepCaller (extVal : String → Nat) (h : String) (d : DedupState) (c : CallerPhase) :
    DedupState × CallerPhase :=
  match c with
  | .start => (d, .checked (lookupA d.processed h))
  | .checked (some v) => (d, .done v)
  | .checked none =>
      ({ processed := insertA d.processed h (extVal h), extractions := d.extractions + 1 },
       .done (extVal h))
  | .done v => (d, .done v)

/-- Run a schedule over two callers that ingest the same content hash:
`true` steps the first caller, `false` the second. -/
def runSched (extVal : String → Nat) (h : String) :
    List Bool → DedupState → CallerPhase → CallerPhase →
    DedupState × CallerPhase × CallerPhase
  | [], d, c1, c2 => (d, c1, c2)
  | b :: rest, d, c1, c2 =>
    if b then
      let s := stepCaller extVal h d c1
      runSched extVal h rest s.1 s.2 c2
    else
      let s := stepCaller extVal h d c2
      runSched extVal h rest s.1 c1 s.2

/-! ## WebSocket protocol handler (app.py lines 62-94).

One connection handles a list of inbound frames in order. A binary frame
is passed to `engine.load_image` and answered with a JSON text frame; a
text frame is parsed as JSON, passed to `engine.transform_image`, and
answered with a binary frame of image bytes; a close or transport-error
frame ends the loop. Any exception inside the per-message try block is
answered with the structured record `{"error": str(e)}` on the same
connection and the loop continues. The engine calls are parameters:
`load_image` and `transform_image` are referenced by app.py but are not
defined in src/engine.py. -/

/-- An inbound WebSocket frame as dispatched by websocket_handler. -/
inductive WsMsg where
  | binary (b : List Nat)
  | text (s : String)
  | close
  | wsError
deriving DecidableEq

/-- An outbound frame: send_str of a JSON document, send_bytes of image
bytes, or send_json of the record with the single field error. -/
inductive WsResp where
  | strFrame (json : String)
  | bytesFrame (b : List Nat)
  | errorJson (e : String)
deriving DecidableEq

/-- The parsed content of an Edit text frame: `data.get('uuid')` and
`data.get('params')`, either of which may be absent. -/
abbrev EditReq := Option String × Option ParamMap

/-- The per-message try block of websocket_handler (app.py lines 75-89):
dispatch on the frame type, and turn any failure into the errorJson
response. Close and transport-error frames yield no response and stop the
loop. -/
def handleMsg (loadImage : List Nat → Except String String)
    (parse : String → Except String EditReq)
    (transform : EditReq → Except String (List Nat)) : WsMsg → Option WsResp
  | .binary b =>
      some (match loadImage b with
            | .ok json => .strFrame json
            | .error e => .errorJson e)
  | .text s =>
      some (match (parse s).bind transform with
            | .ok wb => .bytesFrame wb
            | .error e => .errorJson e)
  | .close => none
  | .wsError => none

/-- The receive loop of websocket_handler (app.py lines 68-89): handle
frames in order, emitting responses on the same connection, until a
close or transport-error frame. -/
def wsLoop (loadImage : List Nat → Except String String)
    (parse : String → Except String EditReq)
    (transform : EditReq → Except String (List Nat)) : List WsMsg → List WsResp
  | [] => []
  | m :: rest =>
    match handleMsg loadImage parse transform m with
    | none => []
    | some r => r :: wsLoop loadImage parse transform rest

/-- The per-image pose scalars of `x_s_info` used by modify_image. -/
structure KpInfo where
  kp : KP
  pitch : ℚ
  yaw : ℚ
  roll : ℚ
  scale : ℚ
  t : Fin 3 → ℚ

/-- The keypoint-edit portion of Engine.modify_image (engine.py lines
172-181): clone the baseline keypoints, apply the facial modifications,
build the rotation matrix from the pose angles plus the rotate_\*
parameters (read from the mapping after `_apply_facial_modifications`
mutated it, as in the source), and apply `scale * (kp @ R) + t`.
`R` abstracts `get_rotation_matrix`, whose source is outside src/. -/
def modifyKeypoints (R : ℚ → ℚ → ℚ → Rot3) (info : KpInfo) (params : ParamMap) : KP :=
  let ap := applyFacialModifications info.kp params
  let Rn := R (info.pitch + pget ap.2 "rotate_pitch")
             (info.yaw + pget ap.2 "rotate_yaw")
             (info.roll + pget ap.2 "rotate_roll")
  kpScaleAddT info.scale (kpMatMul ap.1 Rn) info.t

/-- Modelled from the spec: `Engine.transform_image` is called by
websocket_handler (src/app.py line 83) but is not defined in
src/engine.py; only its caller is in src/. Following spec sections 4.5,
4.3 and 4.4, an Edit request is served by SessionStore lookup of the
session id (failing with SessionNotFound when absent), then the
KeypointEditor (the `modifyKeypoints` embedding above), then the
Compositor render producing encoded image bytes; absent params default
to the empty mapping. `render` abstracts stitching, warp/decode,
paste-back and encoding. -/
def transformImage (R : ℚ → ℚ → ℚ → Rot3) (store : List (String × KpInfo))
    (render : KP → Except String (List Nat)) (req : EditReq) :
    Except String (List Nat) :=
  match req.1 with
  | none => .error "SessionNotFound"
  | some sid =>
    match lookupA store sid with
    | none => .error "SessionNotFound"
    | some info => render (modifyKeypoints R info (req.2.getD []))

/-! ## Concrete instantiations of the external-collaborator parameters,
used by the closed counterexamples and witnesses below. -/

/-- A 32-character decimal key for `n`: a concrete, injective stand-in
for an md5 hexdigest. -/
def natKey (n : Nat) : String :=
  String.mk (List.replicate (32 - (toString n).length) '0') ++ toString n

/-- Concrete md5 stand-in for PIL images. -/
def cMd5I : Nat → String := natKey

/-- Concrete md5 stand-in for byte payloads, keyed by the first byte. -/
def cMd5B : List Nat → String := fun b => natKey (b.headD 0)

/-- Concrete `Image.open` stand-in that recognises no payload. -/
def cOpenNone : String → Except EngErr Nat := fun _ => .error .unidentifiedImage

/-- Concrete extraction that always succeeds with bundle 0. -/
def cExtOk : Nat ⊕ List Nat → Except EngErr Nat := fun _ => .ok 0

/-- Concrete extraction on an image in which no face is detected:
`crop_single_image` (cropper.py lines 91-94) raises the no-face error. -/
def cExtNoFace : Nat ⊕ List Nat → Except EngErr Nat := fun _ => .error .noFaceDetected

/-- Concrete downstream pipeline that always renders the same output. -/
def cPostOk : Nat → ParamMap → Except EngErr String := fun _ _ => .ok "out"

/-- The state reached from a fresh engine after ingesting `n` pairwise
distinct byte payloads `[0], [1], ..., [n-1]`. -/
def cIngestN (n : Nat) : EngineState :=
  foldIngest cMd5I cMd5B cOpenNone cExtOk cPostOk
    ((List.range n).map (fun k => ImgInput.bytes [k])) emptyEngine

/-- The zero keypoint tensor, a concrete baseline for evaluations. -/
def kpZero : KP := fun _ _ => 0

/-- The concrete EditParameters pair eyes = 0.02, pupil_y = 0.01 named by
the specification for the coupling check. -/
def c1Params : ParamMap := [("eyes", 0.02), ("pupil_y", 0.01)]

/-- The concrete EditParameters mapping containing only pupil_y = 0.01. -/
def c9Params : ParamMap := [("pupil_y", 0.01)]

/-- Deterministic extraction result per content hash, used by the
concurrent-ingest model. -/
def cExtVal : String → Nat := fun _ => 7

/-- Concrete load_image handler that fails. -/
def cLoadFail : List Nat → Except String String := fun _ => .error "engine down"

/-- Concrete JSON parse that yields an Edit request with no fields. -/
def cParse : String → Except String EditReq := fun _ => .ok (none, none)

/-- Concrete transform handler that fails. -/
def cTfFail : EditReq → Except String (List Nat) := fun _ => .error "SessionNotFound"

/-- The identity-free rotation stand-in: every angle maps to the zero
matrix (the algebra of the claims never inspects it). -/
def cR0 : ℚ → ℚ → ℚ → Rot3 := fun _ _ _ => (fun _ _ => 0)

/-- A concrete feature bundle for the protocol witness. -/
def cInfo : KpInfo := ⟨kpZero, 0, 0, 0, 1, fun _ => 0⟩

/-- A concrete one-session store for the protocol witness. -/
def cStore : List (String × KpInfo) := [("sid", cInfo)]

/-- Concrete compositor render that always succeeds. -/
def cRenderOk : KP → Except String (List Nat) := fun _ => .ok [9, 9]

/-- Concrete JSON parse yielding an Edit request for session sid with
empty params. -/
def cParseSid : String → Except String EditReq := fun _ => .ok (some "sid", some [])

/-! # Theorems -/

/-! ## Keypoint-editor lemmas -/

theorem pget_nil (k : String) : pget [] k = 0 := rfl

theorem addAt_zero (m : KP) (j : Fin 21) (k : Fin 3) : addAt m j k 0 = m := by
  funext a b
  simp [addAt]

theorem foldAdj_zero (name : String) (l : List Adjustment) (m : KP) :
    l.foldl (fun acc2 adj => addAt acc2 adj.1 adj.2.1 (pget [] name * adj.2.2)) m = m := by
  induction l generalizing m with
  | nil => rfl
  | cons a as ih =>
    rw [List.foldl_cons, pget_nil, zero_mul, addAt_zero]
    exact ih m

theorem applyTable_nil (kp : KP) (table : List (String × List Adjustment)) :
    applyTable kp [] table = kp := by
  induction table generalizing kp with
  | nil => rfl
  | cons row rest ih =>
    show applyTable (row.2.foldl _ kp) [] rest = kp
    rw [foldAdj_zero row.1 row.2 kp]
    exact ih kp

theorem applyFacialModifications_nil (kp : KP) :
    applyFacialModifications kp [] = (kp, [("eyes", 0)]) := by
  unfold applyFacialModifications
  rw [applyTable_nil]
  norm_num [pget_nil, addAt_zero, pset]

/-- C5: with an empty EditParameters map, the keypoint edit of
modify_image is pure pose reconstruction: no table delta and no direct
perturbation survives, and the result is exactly
scale * (baselineKeypoints @ R(pitch, yaw, roll)) + translation. -/
theorem c5_zero_edit_identity (R : ℚ → ℚ → ℚ → Rot3) (info : KpInfo) :
    modifyKeypoints R info [] =
      kpScaleAddT info.scale (kpMatMul info.kp (R info.pitch info.yaw info.roll)) info.t := by
  unfold modifyKeypoints
  rw [applyFacialModifications_nil]
  simp [pget]

/-- C1: at the concrete pair eyes = 0.02, pupil_y = 0.01 on the zero
baseline tensor, the source computes coordinate (0, 11, 1) with the raw
eyes value (total -0.00004), while the computation the specification
mandates, with the effective value eyes - pupil_y/2 = 0.015 feeding the
eyes table row, gives -0.000035; the two disagree because the source
updates params only after the table pass (engine.py line 270), a dead
store within the call. -/
theorem c1_eyes_coupling_eval :
    (applyFacialModifications kpZero c1Params).1 11 1 = -(1 / 25000 : ℚ) ∧
    applyFacialModificationsSpecEyes kpZero c1Params 11 1 = -(7 / 200000 : ℚ) ∧
    (applyFacialModifications kpZero c1Params).1 11 1 ≠
      applyFacialModificationsSpecEyes kpZero c1Params 11 1 := by
  refine ⟨?_, ?_, ?_⟩ <;>
    simp [applyFacialModifications, applyFacialModificationsSpecEyes, applyTable,
      modificationsTable, c1Params, kpZero, pget, pset, addAt] <;>
    norm_num

/-- C9: the call is not pure in its EditParameters argument: evaluating
the source embedding at the mapping containing only pupil_y = 0.01 shows
the call writing eyes = -0.005 into the mapping (engine.py line 270), so
the mapping passed in is mutated. -/
theorem c9_params_mutation_eval :
    (applyFacialModifications kpZero c9Params).2 = [("pupil_y", 0.01), ("eyes", -(1 / 200 : ℚ))] ∧
    (applyFacialModifications kpZero c9Params).2 ≠ c9Params := by
  refine ⟨?_, ?_⟩ <;>
    simp [applyFacialModifications, c9Params, pget, pset] <;>
    norm_num

/-! ## Association-list and cache lemmas -/

theorem lookupA_insertA_self {α : Type} (l : List (String × α)) (k : String) (v : α) :
    lookupA (insertA l k v) k = some v := by
  induction l with
  | nil => simp [insertA, lookupA]
  | cons e rest ih =>
    cases hek : e.1 == k with
    | true => simp [insertA, lookupA, hek]
    | false => simp [insertA, lookupA, hek, ih]

theorem lookupA_insertA_isSome {α : Type} (l : List (String × α)) (k h : String) (v : α)
    (hs : (lookupA l h).isSome) : (lookupA (insertA l k v) h).isSome := by
  induction l with
  | nil => simp [lookupA] at hs
  | cons e rest ih =>
    cases hek : e.1 == k with
    | true =>
      cases heh : e.1 == h with
      | true =>
        rw [show k = h from (eq_of_beq hek).symm.trans (eq_of_beq heh)]
        simp [insertA, lookupA, heh]
      | false =>
        have hkh : (k == h) = false := by
          have h1 := eq_of_beq hek
          rwa [h1] at heh
        simp [insertA, lookupA, hek, hkh]
        simp [lookupA, heh] at hs
        exact hs
    | false =>
      cases heh : e.1 == h with
      | true => simp [insertA, lookupA, hek, heh]
      | false =>
        simp [lookupA, heh] at hs
        simp [insertA, lookupA, hek, heh]
        exact ih hs

theorem lookupA_some_mem {α : Type} (l : List (String × α)) (k : String) (v : α)
    (hl : lookupA l k = some v) : (k, v) ∈ l := by
  induction l with
  | nil => simp [lookupA] at hl
  | cons e rest ih =>
    cases hek : e.1 == k with
    | true =>
      simp [lookupA, hek] at hl
      have h1 := eq_of_beq hek
      have hev : (k, v) = e := by rw [← h1, ← hl]
      rw [hev]
      exact List.mem_cons_self e rest
    | false =>
      simp [lookupA, hek] at hl
      right
      exact ih hl

theorem touchMemo_length_le (l : List (String × Nat)) (k : String) :
    (touchMemo l k).length ≤ l.length := by
  unfold touchMemo
  cases hl : lookupA l k with
  | none => simp
  | some v =>
    simp only [List.length_cons]
    have hmem : (k, v) ∈ l := lookupA_some_mem l k v hl
    have : (l.filter (fun e => !(e.1 == k))).length < l.length := by
      apply List.length_filter_lt_length_iff_exists.mpr
      exact ⟨(k, v), hmem, by simp⟩
    omega

/-- processImageLru never touches image_cache. -/
theorem processImageLru_image_eq (ext : Nat ⊕ List Nat → Except EngErr Nat)
    (st : EngineState) (h : String) :
    ((processImageLru ext st h).2).imageCache = st.imageCache := by
  unfold processImageLru processImageBody
  split
  · rfl
  · split
    · rename_i heq
      split at heq
      · cases heq; rfl
      · split at heq
        · cases heq; rfl
        · cases heq
    · rename_i heq
      split at heq
      · cases heq
      · split at heq
        · cases heq
        · cases heq; rfl

/-- processImageLru can only add processed_cache entries, never drop one. -/
theorem processImageLru_processed_mono (ext : Nat ⊕ List Nat → Except EngErr Nat)
    (st : EngineState) (h k : String)
    (hs : (lookupA st.processedCache k).isSome) :
    (lookupA ((processImageLru ext st h).2).processedCache k).isSome := by
  unfold processImageLru processImageBody
  split
  · exact hs
  · split
    · rename_i heq
      split at heq
      · cases heq; exact hs
      · split at heq
        · cases heq; exact hs
        · cases heq
    · rename_i heq
      split at heq
      · cases heq
      · split at heq
        · cases heq
        · cases heq
          exact lookupA_insertA_isSome _ _ _ _ hs

/-- A successful image_cache fill touches neither processed_cache nor the
lru memo and only ever adds image_cache entries. -/
theorem fillImageCache_ok (openImg : String → Except EngErr Nat)
    (st : EngineState) (input : ImgInput) (h : String) (st1 : EngineState)
    (heq : fillImageCache openImg st input h = .ok st1) :
    st1.processedCache = st.processedCache ∧ st1.lruMemo = st.lruMemo ∧
    (∀ k, (lookupA st.imageCache k).isSome → (lookupA st1.imageCache k).isSome) := by
  unfold fillImageCache at heq
  split at heq
  · cases heq
    exact ⟨rfl, rfl, fun k hk => hk⟩
  · cases input with
    | pil img =>
      cases heq
      exact ⟨rfl, rfl, fun k hk => lookupA_insertA_isSome _ _ _ _ hk⟩
    | bytes b =>
      cases heq
      exact ⟨rfl, rfl, fun k hk => lookupA_insertA_isSome _ _ _ _ hk⟩
    | str s =>
      simp only at heq
      split at heq
      · cases hdec : base64DataUriToImage openImg s with
        | error e => rw [hdec] at heq; cases heq
        | ok img =>
          rw [hdec] at heq
          cases heq
          exact ⟨rfl, rfl, fun k hk => lookupA_insertA_isSome _ _ _ _ hk⟩
      · cases heq

/-- A memo hit returns the memoised value and only refreshes recency. -/
theorem processImageLru_keeps_memo_hit (ext : Nat ⊕ List Nat → Except EngErr Nat)
    (st : EngineState) (h : String) (pd : Nat) (hm : lookupA st.lruMemo h = some pd) :
    processImageLru ext st h = (.ok pd, { st with lruMemo := touchMemo st.lruMemo h }) := by
  unfold processImageLru
  rw [hm]

/-- processImageLru keeps the lru memo within its 256-entry capacity. -/
theorem processImageLru_memo_bound (ext : Nat ⊕ List Nat → Except EngErr Nat)
    (st : EngineState) (h : String) (hb : st.lruMemo.length ≤ 256) :
    ((processImageLru ext st h).2).lruMemo.length ≤ 256 := by
  unfold processImageLru processImageBody
  split
  · exact le_trans (touchMemo_length_le _ _) hb
  · split
    · rename_i heq
      split at heq
      · cases heq; exact hb
      · split at heq
        · cases heq; exact hb
        · cases heq
    · rename_i heq
      split at heq
      · cases heq
      · split at heq
        · cases heq
        · cases heq
          simp only [List.length_take]
          omega

/-- A modify_image call never removes a processed_cache entry. -/
theorem modifyImage_processed_mono (md5I : Nat → String) (md5B : List Nat → String)
    (openImg : String → Except EngErr Nat) (ext : Nat ⊕ List Nat → Except EngErr Nat)
    (post : Nat → ParamMap → Except EngErr String)
    (st : EngineState) (input : ImgInput) (params : ParamMap) (k : String)
    (hs : (lookupA st.processedCache k).isSome) :
    (lookupA ((modifyImage md5I md5B openImg ext post st input params).2).processedCache k).isSome := by
  unfold modifyImage
  split
  · exact hs
  · rename_i h hOk
    split
    · exact hs
    · rename_i st1 heq
      obtain ⟨hp, _, _⟩ := fillImageCache_ok openImg st input h st1 heq
      split
      · exact hp ▸ hs
      · split
        · rename_i e st2 heq2
          have hm := processImageLru_processed_mono ext st1 h k (hp ▸ hs)
          rw [heq2] at hm
          exact hm
        · rename_i pd st2 heq2
          have hm := processImageLru_processed_mono ext st1 h k (hp ▸ hs)
          rw [heq2] at hm
          exact hm

/-- A modify_image call never removes an image_cache entry. -/
theorem modifyImage_image_mono (md5I : Nat → String) (md5B : List Nat → String)
    (openImg : String → Except EngErr Nat) (ext : Nat ⊕ List Nat → Except EngErr Nat)
    (post : Nat → ParamMap → Except EngErr String)
    (st : EngineState) (input : ImgInput) (params : ParamMap) (k : String)
    (hs : (lookupA st.imageCache k).isSome) :
    (lookupA ((modifyImage md5I md5B openImg ext post st input params).2).imageCache k).isSome := by
  unfold modifyImage
  split
  · exact hs
  · rename_i h hOk
    split
    · exact hs
    · rename_i st1 heq
      obtain ⟨_, _, hi⟩ := fillImageCache_ok openImg st input h st1 heq
      split
      · exact hi k hs
      · split
        · rename_i e st2 heq2
          have hm : st2.imageCache = st1.imageCache := by
            have h0 := processImageLru_image_eq ext st1 h
            rw [heq2] at h0
            exact h0
          exact hm.symm ▸ hi k hs
        · rename_i pd st2 heq2
          have hm : st2.imageCache = st1.imageCache := by
            have h0 := processImageLru_image_eq ext st1 h
            rw [heq2] at h0
            exact h0
          exact hm.symm ▸ hi k hs

/-- A modify_image call keeps the lru memo within 256 entries. -/
theorem modifyImage_lru_bound (md5I : Nat → String) (md5B : List Nat → String)
    (openImg : String → Except EngErr Nat) (ext : Nat ⊕ List Nat → Except EngErr Nat)
    (post : Nat → ParamMap → Except EngErr String)
    (st : EngineState) (input : ImgInput) (params : ParamMap)
    (hb : st.lruMemo.length ≤ 256) :
    ((modifyImage md5I md5B openImg ext post st input params).2).lruMemo.length ≤ 256 := by
  unfold modifyImage
  split
  · exact hb
  · rename_i h hOk
    split
    · exact hb
    · rename_i st1 heq
      obtain ⟨_, hl, _⟩ := fillImageCache_ok openImg st input h st1 heq
      split
      · exact hl ▸ hb
      · split
        · rename_i e st2 heq2
          have hm := processImageLru_memo_bound ext st1 h (hl ▸ hb)
          rw [heq2] at hm
          exact hm
        · rename_i pd st2 heq2
          have hm := processImageLru_memo_bound ext st1 h (hl ▸ hb)
          rw [heq2] at hm
          exact hm

/-- Unfolding one step of repeated ingestion. -/
theorem foldIngest_cons (md5I : Nat → String) (md5B : List Nat → String)
    (openImg : String → Except EngErr Nat) (ext : Nat ⊕ List Nat → Except EngErr Nat)
    (post : Nat → ParamMap → Except EngErr String)
    (x : ImgInput) (xs : List ImgInput) (st : EngineState) :
    foldIngest md5I md5B openImg ext post (x :: xs) st =
      foldIngest md5I md5B openImg ext post xs ((modifyImage md5I md5B openImg ext post st x []).2) := rfl

/-- No sequence of further ingests evicts a processed_cache entry. -/
theorem foldIngest_processed_mono (md5I : Nat → String) (md5B : List Nat → String)
    (openImg : String → Except EngErr Nat) (ext : Nat ⊕ List Nat → Except EngErr Nat)
    (post : Nat → ParamMap → Except EngErr String)
    (l : List ImgInput) (st : EngineState) (k : String)
    (hs : (lookupA st.processedCache k).isSome) :
    (lookupA ((foldIngest md5I md5B openImg ext post l st).processedCache) k).isSome := by
  induction l generalizing st with
  | nil => exact hs
  | cons x xs ih =>
    rw [foldIngest_cons]
    exact ih _ (modifyImage_processed_mono md5I md5B openImg ext post st x [] k hs)

/-- No sequence of further ingests evicts an image_cache entry. -/
theorem foldIngest_image_mono (md5I : Nat → String) (md5B : List Nat → String)
    (openImg : String → Except EngErr Nat) (ext : Nat ⊕ List Nat → Except EngErr Nat)
    (post : Nat → ParamMap → Except EngErr String)
    (l : List ImgInput) (st : EngineState) (k : String)
    (hs : (lookupA st.imageCache k).isSome) :
    (lookupA ((foldIngest md5I md5B openImg ext post l st).imageCache) k).isSome := by
  induction l generalizing st with
  | nil => exact hs
  | cons x xs ih =>
    rw [foldIngest_cons]
    exact ih _ (modifyImage_image_mono md5I md5B openImg ext post st x [] k hs)

/-- Repeated ingestion keeps the lru memo within 256 entries. -/
theorem foldIngest_lru_bound (md5I : Nat → String) (md5B : List Nat → String)
    (openImg : String → Except EngErr Nat) (ext : Nat ⊕ List Nat → Except EngErr Nat)
    (post : Nat → ParamMap → Except EngErr String)
    (l : List ImgInput) (st : EngineState)
    (hb : st.lruMemo.length ≤ 256) :
    ((foldIngest md5I md5B openImg ext post l st).lruMemo).length ≤ 256 := by
  induction l generalizing st with
  | nil => exact hb
  | cons x xs ih =>
    rw [foldIngest_cons]
    exact ih _ (modifyImage_lru_bound md5I md5B openImg ext post st x [] hb)

/-- An edit request that provides a bare 32-character hash found in both
caches is served from processed_cache without touching the state. -/
theorem modifyImage_str_hit (md5I : Nat → String) (md5B : List Nat → String)
    (openImg : String → Except EngErr Nat) (ext : Nat ⊕ List Nat → Except EngErr Nat)
    (post : Nat → ParamMap → Except EngErr String)
    (st : EngineState) (k : String) (pd : Nat) (params : ParamMap)
    (hlen : k.length = 32)
    (hi : (lookupA st.imageCache k).isSome)
    (hp : lookupA st.processedCache k = some pd) :
    modifyImage md5I md5B openImg ext post st (.str k) params =
      ((match post pd params with
        | .error e => .error (.failedToModify e)
        | .ok out => .ok out), st) := by
  unfold modifyImage getImageHash fillImageCache
  simp [hlen, hi, hp]

/-- C3 counterexample: ingest 513 pairwise distinct images (one more
than any capacity in the recommended 256-512 band) into a fresh engine,
then look the first-ingested session up by its content hash: the edit is
served successfully, not refused with the not-found error, because the
two session dictionaries never evict. -/
theorem c3_counterexample :
    (modifyImage cMd5I cMd5B cOpenNone cExtOk cPostOk (cIngestN 513)
        (.str (cMd5B [0])) []).1 = .ok "out" ∧
    (modifyImage cMd5I cMd5B cOpenNone cExtOk cPostOk (cIngestN 513)
        (.str (cMd5B [0])) []).1 ≠ .error (.failedToModify .notFoundNoImage) := by
  have h513 : (513 : Nat) = 512 + 1 := rfl
  have hb : cIngestN 513 = foldIngest cMd5I cMd5B cOpenNone cExtOk cPostOk
      (((List.range 512).map Nat.succ).map (fun k => ImgInput.bytes [k]))
      ((modifyImage cMd5I cMd5B cOpenNone cExtOk cPostOk emptyEngine (.bytes [0]) []).2) := by
    rw [cIngestN, h513, List.range_succ_eq_map, List.map_cons, foldIngest_cons]
  have hA : (lookupA ((modifyImage cMd5I cMd5B cOpenNone cExtOk cPostOk emptyEngine
      (.bytes [0]) []).2).imageCache (cMd5B [0])).isSome := by decide
  have hB : (lookupA ((modifyImage cMd5I cMd5B cOpenNone cExtOk cPostOk emptyEngine
      (.bytes [0]) []).2).processedCache (cMd5B [0])).isSome := by decide
  have hA2 : (lookupA (cIngestN 513).imageCache (cMd5B [0])).isSome := by
    rw [hb]
    exact foldIngest_image_mono _ _ _ _ _ _ _ _ hA
  have hB2 : (lookupA (cIngestN 513).processedCache (cMd5B [0])).isSome := by
    rw [hb]
    exact foldIngest_processed_mono _ _ _ _ _ _ _ _ hB
  obtain ⟨pd, hpd⟩ := Option.isSome_iff_exists.mp hB2
  have hhit := modifyImage_str_hit cMd5I cMd5B cOpenNone cExtOk cPostOk (cIngestN 513)
    (cMd5B [0]) pd [] (by decide) hA2 hpd
  rw [hhit]
  exact ⟨rfl, by simp [cPostOk]⟩

/-- C3 amended: the only LRU-bounded structure is the functools memo of
_process_image, whose size never exceeds its 256-entry capacity; the
session dictionaries themselves are unbounded and never evict, so any
session present in processed_cache is still present after ingesting any
further sequence of images. -/
theorem c3_no_eviction (md5I : Nat → String) (md5B : List Nat → String)
    (openImg : String → Except EngErr Nat) (ext : Nat ⊕ List Nat → Except EngErr Nat)
    (post : Nat → ParamMap → Except EngErr String)
    (l : List ImgInput) (st : EngineState) (h : String)
    (hs : (lookupA st.processedCache h).isSome)
    (hb : st.lruMemo.length ≤ 256) :
    (lookupA ((foldIngest md5I md5B openImg ext post l st).processedCache) h).isSome ∧
    ((foldIngest md5I md5B openImg ext post l st).lruMemo).length ≤ 256 :=
  ⟨foldIngest_processed_mono md5I md5B openImg ext post l st h hs,
   foldIngest_lru_bound md5I md5B openImg ext post l st hb⟩

theorem c3_no_eviction_witness :
    (lookupA (EngineState.mk [] [(natKey 0, 0)] []).processedCache (natKey 0)).isSome ∧
    (EngineState.mk [] [(natKey 0, 0)] []).lruMemo.length ≤ 256 ∧
    (lookupA ((foldIngest cMd5I cMd5B cOpenNone cExtOk cPostOk [.bytes [1]]
        (EngineState.mk [] [(natKey 0, 0)] [])).processedCache) (natKey 0)).isSome :=
  ⟨by decide, by decide,
   (c3_no_eviction cMd5I cMd5B cOpenNone cExtOk cPostOk [.bytes [1]]
     (EngineState.mk [] [(natKey 0, 0)] []) (natKey 0) (by decide) (by decide)).1⟩

/-- C6: when extraction detects no face, modify_image on a fresh image
fails with the wrapped no-face error and the sessionId-to-bundle store
(processed_cache) is left exactly as it was: no entry, partial or
otherwise, appears under the image content hash. (The raw-image cache
does retain the decoded upload, which is what lets a later retry rerun
extraction.) -/
theorem c6_no_partial_bundle (md5I : Nat → String) (md5B : List Nat → String)
    (openImg : String → Except EngErr Nat) (ext : Nat ⊕ List Nat → Except EngErr Nat)
    (post : Nat → ParamMap → Except EngErr String)
    (st : EngineState) (b : List Nat) (params : ParamMap)
    (hext : ext (.inr b) = .error .noFaceDetected)
    (hi : lookupA st.imageCache (md5B b) = none)
    (hp : lookupA st.processedCache (md5B b) = none)
    (hm : lookupA st.lruMemo (md5B b) = none) :
    (modifyImage md5I md5B openImg ext post st (.bytes b) params).1 =
      .error (.failedToModify .noFaceDetected) ∧
    ((modifyImage md5I md5B openImg ext post st (.bytes b) params).2).processedCache =
      st.processedCache ∧
    lookupA ((modifyImage md5I md5B openImg ext post st (.bytes b) params).2).processedCache
      (md5B b) = none := by
  unfold modifyImage getImageHash fillImageCache processImageLru processImageBody
  simp [hi, hp, hm, hext, lookupA_insertA_self]

theorem c6_no_partial_bundle_witness :
    cExtNoFace (.inr [5]) = .error .noFaceDetected ∧
    lookupA emptyEngine.imageCache (cMd5B [5]) = none ∧
    (modifyImage cMd5I cMd5B cOpenNone cExtNoFace cPostOk emptyEngine (.bytes [5]) []).1 =
      .error (.failedToModify .noFaceDetected) ∧
    lookupA ((modifyImage cMd5I cMd5B cOpenNone cExtNoFace cPostOk emptyEngine
      (.bytes [5]) []).2).processedCache (cMd5B [5]) = none :=
  ⟨rfl, rfl,
   (c6_no_partial_bundle cMd5I cMd5B cOpenNone cExtNoFace cPostOk emptyEngine [5] []
     rfl rfl rfl rfl).1,
   (c6_no_partial_bundle cMd5I cMd5B cOpenNone cExtNoFace cPostOk emptyEngine [5] []
     rfl rfl rfl rfl).2.2⟩

/-- C8 amended: an unknown session id of exactly 32 characters fails with
the not-found error and leaves the state untouched; ids of any other
length take the base64-decode path instead of the session lookup, so they
can fail with decode errors rather than the not-found error. -/
theorem c8_unknown_session_32 (md5I : Nat → String) (md5B : List Nat → String)
    (openImg : String → Except EngErr Nat) (ext : Nat ⊕ List Nat → Except EngErr Nat)
    (post : Nat → ParamMap → Except EngErr String)
    (st : EngineState) (s : String) (params : ParamMap)
    (hlen : s.length = 32) (hi : lookupA st.imageCache s = none) :
    modifyImage md5I md5B openImg ext post st (.str s) params =
      (.error (.failedToModify .notFoundNoImage), st) := by
  unfold modifyImage getImageHash fillImageCache
  simp [hlen, hi]

theorem c8_unknown_session_32_witness :
    (natKey 7).length = 32 ∧
    lookupA emptyEngine.imageCache (natKey 7) = none ∧
    modifyImage cMd5I cMd5B cOpenNone cExtOk cPostOk emptyEngine (.str (natKey 7)) [] =
      (.error (.failedToModify .notFoundNoImage), emptyEngine) :=
  ⟨by decide, rfl,
   c8_unknown_session_32 cMd5I cMd5B cOpenNone cExtOk cPostOk emptyEngine (natKey 7) []
     (by decide) rfl⟩

/-- C8 counterexample: the five-character fabricated session id bogus was
never issued by the store, yet the edit referencing it fails with the
base64 length error (binascii.Error inside get_image_hash), not with the
not-found error: the claim that only SessionNotFound can result is false
for ids whose length differs from 32. -/
theorem c8_counterexample :
    (modifyImage cMd5I cMd5B cOpenNone cExtOk cPostOk emptyEngine (.str "bogus") []).1 =
      .error (.failedToModify .invalidB64) ∧
    (Except.error (EngErr.failedToModify .invalidB64) : Except EngErr String) ≠
      .error (.failedToModify .notFoundNoImage) :=
  ⟨rfl, by simp⟩

/-- C10: get_image_hash returns a 32-character string unchanged, treating
it as an already-computed content hash, and decodes a string of any other
length as a base64 data URI whose decoded image is hashed; consequently a
32-character edit payload never inserts anything into image_cache. -/
theorem c10_hash_passthrough (md5I : Nat → String) (md5B : List Nat → String)
    (openImg : String → Except EngErr Nat) (ext : Nat ⊕ List Nat → Except EngErr Nat)
    (post : Nat → ParamMap → Except EngErr String)
    (s : String) (st : EngineState) (params : ParamMap) :
    getImageHash md5I md5B openImg (.str s) =
      (if s.length = 32 then .ok s else (base64DataUriToImage openImg s).map md5I) ∧
    (s.length = 32 →
      ((modifyImage md5I md5B openImg ext post st (.str s) params).2).imageCache =
        st.imageCache) := by
  constructor
  · rfl
  · intro hlen
    have hgih : getImageHash md5I md5B openImg (ImgInput.str s) = .ok s := by
      have hred : getImageHash md5I md5B openImg (ImgInput.str s) =
          (if s.length = 32 then .ok s else (base64DataUriToImage openImg s).map md5I) := rfl
      rw [hred, if_pos hlen]
    unfold modifyImage
    rw [hgih]
    by_cases hq : (lookupA st.imageCache s).isSome
    · have hfill : fillImageCache openImg st (.str s) s = .ok st := by
        unfold fillImageCache
        rw [if_pos hq]
      simp only [hfill]
      cases hpc : lookupA st.processedCache s with
      | some pd => simp
      | none =>
        simp only [hpc]
        cases hru : processImageLru ext st s with
        | mk r st2 =>
          have him : st2.imageCache = st.imageCache := by
            have h0 := processImageLru_image_eq ext st s
            rw [hru] at h0
            exact h0
          cases r <;> simp [him]
    · have hfill : fillImageCache openImg st (.str s) s = .error .notFoundNoImage := by
        unfold fillImageCache
        simp [hq, hlen]
      simp only [hfill]

/-- C2: an Edit text frame whose parsed request names a stored session
with well-formed params is answered on the same connection by the binary
frame holding the bytes produced by session lookup, keypoint edit and
render; when the render chain fails instead, the structured error record
is emitted in place of image bytes and the loop goes on. The engine entry
point transform_image is modelled from the spec, being absent from
src/engine.py. -/
theorem c2_edit_flow (loadImage : List Nat → Except String String)
    (parse : String → Except String EditReq)
    (R : ℚ → ℚ → ℚ → Rot3) (store : List (String × KpInfo))
    (render : KP → Except String (List Nat))
    (s sid : String) (params : ParamMap) (info : KpInfo) (rest : List WsMsg)
    (hparse : parse s = .ok (some sid, some params))
    (hstore : lookupA store sid = some info) :
    (∀ wb, render (modifyKeypoints R info params) = .ok wb →
      wsLoop loadImage parse (transformImage R store render) (.text s :: rest) =
        .bytesFrame wb :: wsLoop loadImage parse (transformImage R store render) rest) ∧
    (∀ e, render (modifyKeypoints R info params) = .error e →
      wsLoop loadImage parse (transformImage R store render) (.text s :: rest) =
        .errorJson e :: wsLoop loadImage parse (transformImage R store render) rest) := by
  constructor <;> intro x hx <;>
    simp [wsLoop, handleMsg, transformImage, hparse, hstore, hx, Except.bind]

theorem c2_edit_flow_witness :
    cParseSid "m" = .ok (some "sid", some []) ∧
    lookupA cStore "sid" = some cInfo ∧
    cRenderOk (modifyKeypoints cR0 cInfo []) = .ok [9, 9] ∧
    wsLoop cLoadFail cParseSid (transformImage cR0 cStore cRenderOk) [.text "m"] =
      .bytesFrame [9, 9] :: wsLoop cLoadFail cParseSid (transformImage cR0 cStore cRenderOk) [] :=
  ⟨rfl, rfl, rfl,
   (c2_edit_flow cLoadFail cParseSid cR0 cStore cRenderOk "m" "sid" [] cInfo []
     rfl rfl).1 [9, 9] rfl⟩

/-- C7: any failure raised while handling an inbound frame, whether on
the binary (upload) path or on the text (edit) path, is converted to the
structured record with the single error field, sent on the same
connection, and the loop proceeds to the remaining frames: a handling
failure neither terminates the connection loop nor escapes it. -/
theorem c7_error_containment (loadImage : List Nat → Except String String)
    (parse : String → Except String EditReq)
    (transform : EditReq → Except String (List Nat))
    (b : List Nat) (s : String) (e : String) (rest : List WsMsg) :
    (loadImage b = .error e →
      wsLoop loadImage parse transform (.binary b :: rest) =
        .errorJson e :: wsLoop loadImage parse transform rest) ∧
    ((parse s).bind transform = .error e →
      wsLoop loadImage parse transform (.text s :: rest) =
        .errorJson e :: wsLoop loadImage parse transform rest) := by
  constructor <;> intro h <;> simp [wsLoop, handleMsg, h]

theorem c7_error_containment_witness :
    cLoadFail [1] = .error "engine down" ∧
    wsLoop cLoadFail cParse cTfFail (.binary [1] :: [.text "x"]) =
      .errorJson "engine down" :: wsLoop cLoadFail cParse cTfFail [.text "x"] :=
  ⟨rfl,
   (c7_error_containment cLoadFail cParse cTfFail [1] "x" "engine down" [.text "x"]).1 rfl⟩

/-- C4 counterexample: the memoizing decorator does not serialise
in-flight extractions. Under the interleaving in which both concurrent
ingest callers for the same content hash probe the caches before either
has finished (schedule caller one, caller two, caller one, caller two),
the underlying extraction is invoked twice, refuting exactly-one. -/
theorem c4_counterexample :
    (runSched cExtVal "h" [true, false, true, false]
      ⟨[], 0⟩ .start .start).1.extractions = 2 ∧ (2 : Nat) ≠ 1 :=
  ⟨rfl, by decide⟩

/-- C4 amended: when the two calls are serialised (the first caller runs
both its phases before the second starts), exactly one extraction runs,
and both callers resolve to the same processed value for the shared
content hash, which ends with a single cache entry. -/
theorem c4_serialized_dedup (extVal : String → Nat) (h : String) :
    runSched extVal h [true, true, false, false] ⟨[], 0⟩ .start .start =
      (⟨[(h, extVal h)], 1⟩, .done (extVal h), .done (extVal h)) := by
  simp [runSched, stepCaller, lookupA, insertA]

theorem c10_hash_passthrough_witness :
    (natKey 3).length = 32 ∧
    getImageHash cMd5I cMd5B cOpenNone (.str (natKey 3)) =
      (if (natKey 3).length = 32 then .ok (natKey 3)
       else (base64DataUriToImage cOpenNone (natKey 3)).map cMd5I) ∧
    ((modifyImage cMd5I cMd5B cOpenNone cExtOk cPostOk emptyEngine
      (.str (natKey 3)) []).2).imageCache = emptyEngine.imageCache :=
  ⟨by decide,
   (c10_hash_passthrough cMd5I cMd5B cOpenNone cExtOk cPostOk (natKey 3) emptyEngine []).1,
   (c10_hash_passthrough cMd5I cMd5B cOpenNone cExtOk cPostOk (natKey 3) emptyEngine []).2
     (by decide)⟩

end FacePoke
